import Mathlib

/-!
Verification of the ETL consolidation logic of `lab_5/lab_5.py`
(`transform_data` and the `/consolidated-data` endpoint).

Modelling conventions:
* JSON leaf values are modelled by `JVal` (numbers as exact rationals,
  strings, booleans, null).  A raw element of an input array is a `RawItem`:
  either a JSON object (list of string-keyed fields) or some non-object
  value, whose per-record processing always fails and is skipped.
* Python / pydantic-v1 numbers are modelled as `Rat` (stock and ids as
  `Int`); `round(x, 2)` is modelled as exact round-half-even at two
  decimals on rationals.
* The pydantic v1 field coercions are modelled by `coerceInt`,
  `coerceFloat`, `coerceStr`: ints accept bools, floats (truncating toward
  zero) and integer strings; floats accept bools and decimal strings;
  strings accept numbers and bools.  (For a non-integer rational flowing
  into a string field the rendered text differs from CPython's float
  formatting; no other modelled behaviour depends on that text.)
* The insertion-ordered `dict[int, ConsolidatedProduct]` is modelled by an
  association list `PMap`; assignment to an existing key replaces the value
  in place, assignment to a fresh key appends.
* A `try ... except Exception: log and skip` body is modelled by the parser
  returning `Option`/failure and the step function returning the unchanged
  state in the failure branches.
-/

/-- JSON leaf value, as produced by `json.load` inside a record. -/
inductive JVal where
  | jnum (q : Rat)
  | jstr (s : String)
  | jbool (b : Bool)
  | jnull
deriving DecidableEq

/-- One element of a raw input array: a JSON object, or any non-object
value (whose processing raises inside the per-record `try` and is skipped). -/
inductive RawItem where
  | obj (fields : List (String × JVal))
  | nonObj
deriving DecidableEq

/-- Field access on a raw JSON object (`dict.get` without default). -/
def getField (f : List (String × JVal)) (k : String) : Option JVal :=
  (f.find? (fun p => p.1 == k)).map Prod.snd

/-- Digits of a decimal string folded to a `Nat`; fails on a non-digit. -/
def decDigitsAll (s : String) : Option Nat :=
  s.toList.foldlM (fun a c => if c.isDigit then some (a * 10 + (c.toNat - 48)) else none) 0

/-- Nonempty all-digit string to `Nat`. -/
def decDigitsSome (s : String) : Option Nat :=
  if s.isEmpty then none else decDigitsAll s

/-- Model of Python `float(str)` on plain decimal literals (sign, digits,
optional fractional part); anything else fails. -/
def parseDecimal (s : String) : Option Rat :=
  let t := s.trim
  let sg : Rat := if t.startsWith "-" then -1 else 1
  let r := if t.startsWith "-" || t.startsWith "+" then t.drop 1 else t
  match r.splitOn "." with
  | [a] => (decDigitsSome a).map (fun n => sg * (n : Rat))
  | [a, b] =>
    if a.isEmpty && b.isEmpty then none
    else match decDigitsAll a, decDigitsAll b with
      | some na, some nb => some (sg * ((na : Rat) + (nb : Rat) / ((10 : Rat) ^ b.length)))
      | _, _ => none
  | _ => none

/-- Model of Python `int(str)`: optional sign, digits. -/
def parseIntString (s : String) : Option Int :=
  let t := s.trim
  if t.startsWith "+" then (t.drop 1).toNat?.map Int.ofNat else t.toInt?

/-- Truncation toward zero of a rational, as Python `int(float)`. -/
def ratTrunc (q : Rat) : Int :=
  Int.tdiv q.num q.den

/-- Pydantic v1 coercion into an `int` field. -/
def coerceInt : JVal → Option Int
  | .jnum q => some (ratTrunc q)
  | .jbool b => some (if b then 1 else 0)
  | .jstr s => parseIntString s
  | .jnull => none

/-- Pydantic v1 coercion into a `float` field. -/
def coerceFloat : JVal → Option Rat
  | .jnum q => some q
  | .jbool b => some (if b then 1 else 0)
  | .jstr s => parseDecimal s
  | .jnull => none

/-- Pydantic v1 coercion into a `str` field. -/
def coerceStr : JVal → Option String
  | .jstr s => some s
  | .jnum q => some (if q.den = 1 then toString q.num else toString q)
  | .jbool b => some (if b then "True" else "False")
  | .jnull => none

/-- Required field of a pydantic model: missing or uncoercible fails. -/
def reqField (f : List (String × JVal)) (k : String) (c : JVal → Option α) : Option α :=
  (getField f k).bind c

/-- Optional field of a pydantic model: missing or null is `none`; a present
value that fails coercion fails the whole record. -/
def optField (f : List (String × JVal)) (k : String) (c : JVal → Option α) :
    Option (Option α) :=
  match getField f k with
  | none => some none
  | some .jnull => some none
  | some v => (c v).map some

/-- Model of `ProductSourceA` (pydantic): id, name (min length 3),
category, price (> 0), stock (>= 0). -/
structure ProductSourceA where
  id : Int
  name : String
  category : String
  price : Rat
  stock : Int
deriving DecidableEq

/-- Model of `ProductSourceB` (pydantic): required product_id, all other
fields optional with no extra constraints. -/
structure ProductSourceB where
  product_id : Int
  name : Option String
  category : Option String
  description : Option String
  supplier : Option String
  old_price : Option Rat
  price : Option Rat
  stock : Option Int
deriving DecidableEq

/-- Model of `ConsolidatedProduct` (pydantic). -/
structure ConsolidatedProduct where
  id : Int
  name : String
  category : String
  price : Rat
  stock : Int
  description : Option String := none
  supplier : Option String := none
  price_change_percentage : Option Rat := none
deriving DecidableEq

/-- Validation of a raw object against `ProductSourceA`
(`ProductSourceA(**item_a_raw)`). -/
def parseA (f : List (String × JVal)) : Option ProductSourceA :=
  (reqField f "id" coerceInt).bind fun i =>
  (reqField f "name" coerceStr).bind fun nm =>
  if nm.length < 3 then none else
  (reqField f "category" coerceStr).bind fun cat =>
  (reqField f "price" coerceFloat).bind fun pr =>
  if pr ≤ 0 then none else
  (reqField f "stock" coerceInt).bind fun st =>
  if st < 0 then none else
  some ⟨i, nm, cat, pr, st⟩

/-- Validation of a raw object against `ProductSourceB`
(`ProductSourceB(**item_b_raw)`). -/
def parseB (f : List (String × JVal)) : Option ProductSourceB :=
  (reqField f "product_id" coerceInt).bind fun pid =>
  (optField f "name" coerceStr).bind fun nm =>
  (optField f "category" coerceStr).bind fun cat =>
  (optField f "description" coerceStr).bind fun ds =>
  (optField f "supplier" coerceStr).bind fun sp =>
  (optField f "old_price" coerceFloat).bind fun op =>
  (optField f "price" coerceFloat).bind fun pr =>
  (optField f "stock" coerceInt).bind fun st =>
  some ⟨pid, nm, cat, ds, sp, op, pr, st⟩

/-- Category standardisation table of `transform_data`, applied to
source-A records, updates and inserts alike (lines 124-133, 160-172,
199-211 of lab_5.py). -/
def normalizeCategory (c : String) : String :=
  let l := c.toLower
  if l = "laptops" ∨ l = "notebooks" then "Ноутбуки"
  else if l = "smartphones" ∨ l = "phones" then "Смартфони"
  else if l = "audio" ∨ l = "headphones" then "Аудіотехніка"
  else if l = "tablets" then "Планшети"
  else if l = "wearables" then "Носимі пристрої"
  else c

/-- Round half to even (Python `round` on an exact value). -/
def roundHalfEven (q : Rat) : Int :=
  let f := q.floor
  let r := q - (f : Rat)
  if r < 1 / 2 then f
  else if 1 / 2 < r then f + 1
  else if f % 2 = 0 then f else f + 1

/-- Python `round(x, 2)` on an exact rational. -/
def round2 (q : Rat) : Rat :=
  ((roundHalfEven (q * 100) : Int) : Rat) / 100

/-- The in-memory consolidated mapping: insertion-ordered association list
modelling the Python `dict[int, ConsolidatedProduct]`. -/
abbrev PMap := List (Int × ConsolidatedProduct)

/-- Dict lookup. -/
def lookupP : PMap → Int → Option ConsolidatedProduct
  | [], _ => none
  | (k, v) :: rest, i => if k = i then some v else lookupP rest i

/-- Dict assignment: replace in place when the key exists, append otherwise. -/
def setKey : PMap → Int → ConsolidatedProduct → PMap
  | [], i, v => [(i, v)]
  | (k, w) :: rest, i, v =>
    if k = i then (k, v) :: rest else (k, w) :: setKey rest i v

/-- Keys of the mapping in insertion order. -/
def keysOf (m : PMap) : List Int := m.map Prod.fst

/-- The `max(transformed_products.keys()) if transformed_products else 0`
expression of line 148. -/
def maxKeyOr0 (m : PMap) : Int :=
  match keysOf m with
  | [] => 0
  | k :: ks => ks.foldl max k

/-- Model of the Python truthiness test `if value <= 0` used by the raw
cleaning check of line 116: comparison of a string or null with `0` raises
(`none`), booleans compare as 0/1. -/
def leZeroCheck : JVal → Option Bool
  | .jnum q => some (decide (q ≤ 0))
  | .jbool b => some (!b)
  | .jstr _ => none
  | .jnull => none

/-- Combined verdict of `item_a_raw.get("price", 0) <= 0 or
item_a_raw.get("stock", 0) <= 0` with short-circuiting: `some true` means
skip because of a non-positive value, `some false` means proceed, `none`
means the comparison raised (record skipped by the exception handler). -/
def cleanVerdict (f : List (String × JVal)) : Option Bool :=
  match leZeroCheck ((getField f "price").getD (.jnum 0)) with
  | none => none
  | some true => some true
  | some false => leZeroCheck ((getField f "stock").getD (.jnum 0))

/-- The `ConsolidatedProduct` built from a validated source-A record
(lines 136-142), with its category standardised. -/
def consolidateA (a : ProductSourceA) : ConsolidatedProduct :=
  { id := a.id
    name := a.name
    category := normalizeCategory a.category
    price := a.price
    stock := a.stock
    description := none
    supplier := none
    price_change_percentage := none }

/-- Processing of one raw source-A element (lines 113-144): cleaning check,
validation, category standardisation, insertion keyed by id; every failure
leaves the mapping unchanged. -/
def stepA (m : PMap) (r : RawItem) : PMap :=
  match r with
  | .nonObj => m
  | .obj f =>
    match cleanVerdict f with
    | none => m
    | some true => m
    | some false =>
      match parseA f with
      | none => m
      | some a => setKey m a.id (consolidateA a)

/-- The whole source-A pass (clean_and_seed). -/
def seedA (da : List RawItem) : PMap :=
  da.foldl stepA []

/-- Python truthiness of an `Optional[str]`: `None` and the empty string
are falsy. -/
def strTruthy : Option String → Bool
  | none => false
  | some s => !(s == "")

/-- State of the merge pass: the mapping and `current_max_id`. -/
abbrev MergeState := PMap × Int

/-- The presence check of line 191:
`all([item_b.name, item_b.category, item_b.price is not None, item_b.stock is not None])`. -/
def requiredPresent (b : ProductSourceB) : Bool :=
  strTruthy b.name && strTruthy b.category && b.price.isSome && b.stock.isSome

/-- The constraints the `ConsolidatedProduct` constructor of line 214
enforces on an inserted record: name of length at least 3, price > 0,
stock >= 0. -/
def insertValid (b : ProductSourceB) : Bool :=
  decide (3 ≤ (b.name.getD "").length) && decide (0 < b.price.getD 0)
    && decide (0 ≤ b.stock.getD 0)

/-- The record inserted for an unmatched patch (lines 214-222). -/
def insertedRecord (b : ProductSourceB) (newId : Int) : ConsolidatedProduct :=
  { id := newId
    name := b.name.getD ""
    category := normalizeCategory (b.category.getD "")
    price := b.price.getD 0
    stock := b.stock.getD 0
    description := b.description
    supplier := b.supplier
    price_change_percentage := none }

/-- Line 159: `if item_b.name: existing_product.name = item_b.name`. -/
def applyName (e : ConsolidatedProduct) (b : ProductSourceB) : ConsolidatedProduct :=
  match b.name with
  | some n => if n = "" then e else { e with name := n }
  | none => e

/-- Lines 160-172: category update through the standardisation table. -/
def applyCategory (e : ConsolidatedProduct) (b : ProductSourceB) : ConsolidatedProduct :=
  match b.category with
  | some c => if c = "" then e else { e with category := normalizeCategory c }
  | none => e

/-- Line 175: `if item_b.description: ...`. -/
def applyDescription (e : ConsolidatedProduct) (b : ProductSourceB) : ConsolidatedProduct :=
  match b.description with
  | some d => if d = "" then e else { e with description := some d }
  | none => e

/-- Line 176: `if item_b.supplier: ...`. -/
def applySupplier (e : ConsolidatedProduct) (b : ProductSourceB) : ConsolidatedProduct :=
  match b.supplier with
  | some s => if s = "" then e else { e with supplier := some s }
  | none => e

/-- Lines 178-185: price-change percentage, then price overwrite, then
stock overwrite. -/
def applyPriceStock (e : ConsolidatedProduct) (b : ProductSourceB) : ConsolidatedProduct :=
  let newP := b.price.getD e.price
  let refP := b.old_price.getD e.price
  let e1 :=
    if refP ≠ 0 ∧ newP ≠ refP then
      { e with price_change_percentage := some (round2 (((newP - refP) / refP) * 100)) }
    else e
  let e2 := match b.price with | some p => { e1 with price := p } | none => e1
  match b.stock with | some s => { e2 with stock := s } | none => e2

/-- Update of an existing record by a matching patch (lines 156-185). -/
def updateExisting (e : ConsolidatedProduct) (b : ProductSourceB) : ConsolidatedProduct :=
  applyPriceStock (applySupplier (applyDescription (applyCategory (applyName e b) b) b) b) b

/-- Processing of one validated patch record (lines 153-222).  Returns the
new state and the fresh identifier when a record was inserted.  Note that
`current_max_id` is incremented before the constructor runs, so an
insertion attempt whose record fails validation still consumes an
identifier. -/
def processParsedB (s : MergeState) (b : ProductSourceB) : MergeState × Option Int :=
  match lookupP s.1 b.product_id with
  | some e => ((setKey s.1 b.product_id (updateExisting e b), s.2), none)
  | none =>
    if requiredPresent b then
      let newId := s.2 + 1
      if insertValid b then
        ((setKey s.1 newId (insertedRecord b newId), newId), some newId)
      else ((s.1, newId), none)
    else (s, none)

/-- Processing of one raw source-B element (lines 150-224): validation then
`processParsedB`; every validation failure leaves the state unchanged. -/
def stepB (s : MergeState) (r : RawItem) : MergeState × Option Int :=
  match r with
  | .nonObj => (s, none)
  | .obj f =>
    match parseB f with
    | none => (s, none)
    | some b => processParsedB s b

/-- Prepend an optionally assigned identifier to a list of identifiers. -/
def consOpt : Option Int → List Int → List Int
  | some k, l => k :: l
  | none, l => l

/-- The merge pass over a list of raw patch records, also collecting the
fresh identifiers assigned to inserted records, in input order. -/
def mergeRun : MergeState → List RawItem → MergeState × List Int
  | s, [] => (s, [])
  | s, r :: rs =>
    let p := stepB s r
    let q := mergeRun p.1 rs
    (q.1, consOpt p.2 q.2)

/-- The merge operation as invoked by `transform_data`: the counter starts
at the maximum key of the seeded mapping (line 148). -/
def merge_patches (m : PMap) (db : List RawItem) : PMap :=
  (mergeRun (m, maxKeyOr0 m) db).1.1

/-- The whole `transform_data` pipeline: seed from source A, merge source B,
return the records in insertion order (line 226). -/
def transform_data (da db : List RawItem) : List ConsolidatedProduct :=
  (merge_patches (seedA da) db).map Prod.snd

/-! Field-preservation lemmas for the update-branch appliers. -/

/-- Name update leaves the category unchanged. -/
theorem applyName_category (e : ConsolidatedProduct) (b : ProductSourceB) :
    (applyName e b).category = e.category := by
  obtain ⟨_, bn, _, _, _, _, _, _⟩ := b
  cases bn with
  | none => rfl
  | some n => by_cases h : n = "" <;> simp [applyName, h]

/-- Name update leaves the description unchanged. -/
theorem applyName_description (e : ConsolidatedProduct) (b : ProductSourceB) :
    (applyName e b).description = e.description := by
  obtain ⟨_, bn, _, _, _, _, _, _⟩ := b
  cases bn with
  | none => rfl
  | some n => by_cases h : n = "" <;> simp [applyName, h]

/-- Name update leaves the supplier unchanged. -/
theorem applyName_supplier (e : ConsolidatedProduct) (b : ProductSourceB) :
    (applyName e b).supplier = e.supplier := by
  obtain ⟨_, bn, _, _, _, _, _, _⟩ := b
  cases bn with
  | none => rfl
  | some n => by_cases h : n = "" <;> simp [applyName, h]

/-- Name update leaves the price unchanged. -/
theorem applyName_price (e : ConsolidatedProduct) (b : ProductSourceB) :
    (applyName e b).price = e.price := by
  obtain ⟨_, bn, _, _, _, _, _, _⟩ := b
  cases bn with
  | none => rfl
  | some n => by_cases h : n = "" <;> simp [applyName, h]

/-- Name update leaves the price-change percentage unchanged. -/
theorem applyName_pcp (e : ConsolidatedProduct) (b : ProductSourceB) :
    (applyName e b).price_change_percentage = e.price_change_percentage := by
  obtain ⟨_, bn, _, _, _, _, _, _⟩ := b
  cases bn with
  | none => rfl
  | some n => by_cases h : n = "" <;> simp [applyName, h]

/-- Category update leaves the name unchanged. -/
theorem applyCategory_name (e : ConsolidatedProduct) (b : ProductSourceB) :
    (applyCategory e b).name = e.name := by
  obtain ⟨_, _, bc, _, _, _, _, _⟩ := b
  cases bc with
  | none => rfl
  | some c => by_cases h : c = "" <;> simp [applyCategory, h]

/-- Category update leaves the description unchanged. -/
theorem applyCategory_description (e : ConsolidatedProduct) (b : ProductSourceB) :
    (applyCategory e b).description = e.description := by
  obtain ⟨_, _, bc, _, _, _, _, _⟩ := b
  cases bc with
  | none => rfl
  | some c => by_cases h : c = "" <;> simp [applyCategory, h]

/-- Category update leaves the supplier unchanged. -/
theorem applyCategory_supplier (e : ConsolidatedProduct) (b : ProductSourceB) :
    (applyCategory e b).supplier = e.supplier := by
  obtain ⟨_, _, bc, _, _, _, _, _⟩ := b
  cases bc with
  | none => rfl
  | some c => by_cases h : c = "" <;> simp [applyCategory, h]

/-- Category update leaves the price unchanged. -/
theorem applyCategory_price (e : ConsolidatedProduct) (b : ProductSourceB) :
    (applyCategory e b).price = e.price := by
  obtain ⟨_, _, bc, _, _, _, _, _⟩ := b
  cases bc with
  | none => rfl
  | some c => by_cases h : c = "" <;> simp [applyCategory, h]

/-- Category update leaves the price-change percentage unchanged. -/
theorem applyCategory_pcp (e : ConsolidatedProduct) (b : ProductSourceB) :
    (applyCategory e b).price_change_percentage = e.price_change_percentage := by
  obtain ⟨_, _, bc, _, _, _, _, _⟩ := b
  cases bc with
  | none => rfl
  | some c => by_cases h : c = "" <;> simp [applyCategory, h]

/-- Description update leaves the name unchanged. -/
theorem applyDescription_name (e : ConsolidatedProduct) (b : ProductSourceB) :
    (applyDescription e b).name = e.name := by
  obtain ⟨_, _, _, bd, _, _, _, _⟩ := b
  cases bd with
  | none => rfl
  | some d => by_cases h : d = "" <;> simp [applyDescription, h]

/-- Description update leaves the category unchanged. -/
theorem applyDescription_category (e : ConsolidatedProduct) (b : ProductSourceB) :
    (applyDescription e b).category = e.category := by
  obtain ⟨_, _, _, bd, _, _, _, _⟩ := b
  cases bd with
  | none => rfl
  | some d => by_cases h : d = "" <;> simp [applyDescription, h]

/-- Description update leaves the supplier unchanged. -/
theorem applyDescription_supplier (e : ConsolidatedProduct) (b : ProductSourceB) :
    (applyDescription e b).supplier = e.supplier := by
  obtain ⟨_, _, _, bd, _, _, _, _⟩ := b
  cases bd with
  | none => rfl
  | some d => by_cases h : d = "" <;> simp [applyDescription, h]

/-- Description update leaves the price unchanged. -/
theorem applyDescription_price (e : ConsolidatedProduct) (b : ProductSourceB) :
    (applyDescription e b).price = e.price := by
  obtain ⟨_, _, _, bd, _, _, _, _⟩ := b
  cases bd with
  | none => rfl
  | some d => by_cases h : d = "" <;> simp [applyDescription, h]

/-- Description update leaves the price-change percentage unchanged. -/
theorem applyDescription_pcp (e : ConsolidatedProduct) (b : ProductSourceB) :
    (applyDescription e b).price_change_percentage = e.price_change_percentage := by
  obtain ⟨_, _, _, bd, _, _, _, _⟩ := b
  cases bd with
  | none => rfl
  | some d => by_cases h : d = "" <;> simp [applyDescription, h]

/-- Supplier update leaves the name unchanged. -/
theorem applySupplier_name (e : ConsolidatedProduct) (b : ProductSourceB) :
    (applySupplier e b).name = e.name := by
  obtain ⟨_, _, _, _, bs, _, _, _⟩ := b
  cases bs with
  | none => rfl
  | some s => by_cases h : s = "" <;> simp [applySupplier, h]

/-- Supplier update leaves the category unchanged. -/
theorem applySupplier_category (e : ConsolidatedProduct) (b : ProductSourceB) :
    (applySupplier e b).category = e.category := by
  obtain ⟨_, _, _, _, bs, _, _, _⟩ := b
  cases bs with
  | none => rfl
  | some s => by_cases h : s = "" <;> simp [applySupplier, h]

/-- Supplier update leaves the description unchanged. -/
theorem applySupplier_description (e : ConsolidatedProduct) (b : ProductSourceB) :
    (applySupplier e b).description = e.description := by
  obtain ⟨_, _, _, _, bs, _, _, _⟩ := b
  cases bs with
  | none => rfl
  | some s => by_cases h : s = "" <;> simp [applySupplier, h]

/-- Supplier update leaves the price unchanged. -/
theorem applySupplier_price (e : ConsolidatedProduct) (b : ProductSourceB) :
    (applySupplier e b).price = e.price := by
  obtain ⟨_, _, _, _, bs, _, _, _⟩ := b
  cases bs with
  | none => rfl
  | some s => by_cases h : s = "" <;> simp [applySupplier, h]

/-- Supplier update leaves the price-change percentage unchanged. -/
theorem applySupplier_pcp (e : ConsolidatedProduct) (b : ProductSourceB) :
    (applySupplier e b).price_change_percentage = e.price_change_percentage := by
  obtain ⟨_, _, _, _, bs, _, _, _⟩ := b
  cases bs with
  | none => rfl
  | some s => by_cases h : s = "" <;> simp [applySupplier, h]

/-- The price/stock block leaves the name unchanged. -/
theorem applyPriceStock_name (e : ConsolidatedProduct) (b : ProductSourceB) :
    (applyPriceStock e b).name = e.name := by
  obtain ⟨_, _, _, _, _, bop, bp, bst⟩ := b
  simp only [applyPriceStock]
  cases bst <;> cases bp <;> dsimp only [Option.getD] <;> split <;> rfl

/-- The price/stock block leaves the category unchanged. -/
theorem applyPriceStock_category (e : ConsolidatedProduct) (b : ProductSourceB) :
    (applyPriceStock e b).category = e.category := by
  obtain ⟨_, _, _, _, _, bop, bp, bst⟩ := b
  simp only [applyPriceStock]
  cases bst <;> cases bp <;> dsimp only [Option.getD] <;> split <;> rfl

/-- The price/stock block leaves the description unchanged. -/
theorem applyPriceStock_description (e : ConsolidatedProduct) (b : ProductSourceB) :
    (applyPriceStock e b).description = e.description := by
  obtain ⟨_, _, _, _, _, bop, bp, bst⟩ := b
  simp only [applyPriceStock]
  cases bst <;> cases bp <;> dsimp only [Option.getD] <;> split <;> rfl

/-- The price/stock block leaves the supplier unchanged. -/
theorem applyPriceStock_supplier (e : ConsolidatedProduct) (b : ProductSourceB) :
    (applyPriceStock e b).supplier = e.supplier := by
  obtain ⟨_, _, _, _, _, bop, bp, bst⟩ := b
  simp only [applyPriceStock]
  cases bst <;> cases bp <;> dsimp only [Option.getD] <;> split <;> rfl

/-- Characterisation of the stored price-change percentage: present exactly
when the reference price is nonzero and the new price differs from it,
computed before the price overwrite. -/
theorem applyPriceStock_pcp (e : ConsolidatedProduct) (b : ProductSourceB) :
    (applyPriceStock e b).price_change_percentage =
      if b.old_price.getD e.price ≠ 0 ∧ b.price.getD e.price ≠ b.old_price.getD e.price
      then some (round2 (((b.price.getD e.price - b.old_price.getD e.price) /
        b.old_price.getD e.price) * 100))
      else e.price_change_percentage := by
  obtain ⟨_, _, _, _, _, bop, bp, bst⟩ := b
  simp only [applyPriceStock]
  cases bst <;> cases bp <;> dsimp only [Option.getD] <;> split <;> rfl

/-- The final price is the patch price when supplied, the existing price
otherwise. -/
theorem applyPriceStock_price (e : ConsolidatedProduct) (b : ProductSourceB) :
    (applyPriceStock e b).price = b.price.getD e.price := by
  obtain ⟨_, _, _, _, _, bop, bp, bst⟩ := b
  simp only [applyPriceStock]
  cases bst <;> cases bp <;> dsimp only [Option.getD] <;> split <;> rfl

/-- The final stock is the patch stock when supplied, the existing stock
otherwise. -/
theorem applyPriceStock_stock (e : ConsolidatedProduct) (b : ProductSourceB) :
    (applyPriceStock e b).stock = b.stock.getD e.stock := by
  obtain ⟨_, _, _, _, _, bop, bp, bst⟩ := b
  simp only [applyPriceStock]
  cases bst <;> cases bp <;> dsimp only [Option.getD] <;> split <;> rfl

/-- Price of the record after the four text-field updates. -/
theorem textApply_price (e : ConsolidatedProduct) (b : ProductSourceB) :
    (applySupplier (applyDescription (applyCategory (applyName e b) b) b) b).price
      = e.price := by
  rw [applySupplier_price, applyDescription_price, applyCategory_price, applyName_price]

/-- Price-change percentage of the record after the four text-field updates. -/
theorem textApply_pcp (e : ConsolidatedProduct) (b : ProductSourceB) :
    (applySupplier (applyDescription (applyCategory (applyName e b) b) b)
      b).price_change_percentage = e.price_change_percentage := by
  rw [applySupplier_pcp, applyDescription_pcp, applyCategory_pcp, applyName_pcp]

/-- An empty-string patch name is falsy and leaves the record untouched. -/
theorem applyName_empty (e : ConsolidatedProduct) (b : ProductSourceB)
    (h : b.name = some "") : applyName e b = e := by
  unfold applyName; rw [h]; simp

/-- An empty-string patch category is falsy and leaves the record untouched. -/
theorem applyCategory_empty (e : ConsolidatedProduct) (b : ProductSourceB)
    (h : b.category = some "") : applyCategory e b = e := by
  unfold applyCategory; rw [h]; simp

/-- An empty-string patch description is falsy and leaves the record untouched. -/
theorem applyDescription_empty (e : ConsolidatedProduct) (b : ProductSourceB)
    (h : b.description = some "") : applyDescription e b = e := by
  unfold applyDescription; rw [h]; simp

/-- An empty-string patch supplier is falsy and leaves the record untouched. -/
theorem applySupplier_empty (e : ConsolidatedProduct) (b : ProductSourceB)
    (h : b.supplier = some "") : applySupplier e b = e := by
  unfold applySupplier; rw [h]; simp

/-- Example record for the price-change computation: price 100, no stored
percentage. -/
def c2e : ConsolidatedProduct := ⟨1, "AAA", "Аудіотехніка", 100, 5, none, none, none⟩

/-- Patch supplying old price 100 and new price 90. -/
def c2bPatch : ProductSourceB := ⟨1, none, none, none, none, some 100, some 90, none⟩

/-- Patch supplying old price 0 and new price 90. -/
def c2bZeroRef : ProductSourceB := ⟨1, none, none, none, none, some 0, some 90, none⟩

/-- C2: for a patch matching an existing record, the stored
price-change-percentage equals round(((new - ref) / ref) * 100, 2) with
new = patch price else existing price and ref = patch old price else
existing price, stored exactly when ref is nonzero and new differs from
ref (otherwise the previously stored percentage is kept), the percentage is
computed against the price before overwriting, and the final price is the
patch price when supplied; reference 100 with new 90 gives -10.0, and a
zero reference stores no percentage. -/
theorem update_price_change_spec (e : ConsolidatedProduct) (b : ProductSourceB) :
    ((updateExisting e b).price_change_percentage =
      if b.old_price.getD e.price ≠ 0 ∧ b.price.getD e.price ≠ b.old_price.getD e.price
      then some (round2 (((b.price.getD e.price - b.old_price.getD e.price) /
        b.old_price.getD e.price) * 100))
      else e.price_change_percentage) ∧
    (updateExisting e b).price = b.price.getD e.price ∧
    (updateExisting c2e c2bPatch).price_change_percentage = some (-10) ∧
    (updateExisting c2e c2bZeroRef).price_change_percentage = none := by
  refine ⟨?_, ?_, by with_unfolding_all rfl, by with_unfolding_all rfl⟩
  · unfold updateExisting
    rw [applyPriceStock_pcp, textApply_price, textApply_pcp]
  · unfold updateExisting
    rw [applyPriceStock_price, textApply_price]

/-- C10: in the update branch, an empty string supplied for name, category,
description or supplier is treated like an absent field (the existing value
is kept), while any supplied non-null stock or price, including 0, is
applied. -/
theorem update_empty_string_fields (e : ConsolidatedProduct) (b : ProductSourceB) :
    (b.name = some "" → (updateExisting e b).name = e.name) ∧
    (b.category = some "" → (updateExisting e b).category = e.category) ∧
    (b.description = some "" → (updateExisting e b).description = e.description) ∧
    (b.supplier = some "" → (updateExisting e b).supplier = e.supplier) ∧
    (∀ s, b.stock = some s → (updateExisting e b).stock = s) ∧
    (∀ p, b.price = some p → (updateExisting e b).price = p) := by
  unfold updateExisting
  refine ⟨fun h => ?_, fun h => ?_, fun h => ?_, fun h => ?_,
    fun s h => ?_, fun p h => ?_⟩
  · rw [applyPriceStock_name, applySupplier_name, applyDescription_name,
      applyCategory_name, applyName_empty e b h]
  · rw [applyPriceStock_category, applySupplier_category, applyDescription_category,
      applyCategory_empty _ b h, applyName_category]
  · rw [applyPriceStock_description, applySupplier_description,
      applyDescription_empty _ b h, applyCategory_description, applyName_description]
  · rw [applyPriceStock_supplier, applySupplier_empty _ b h,
      applyDescription_supplier, applyCategory_supplier, applyName_supplier]
  · rw [applyPriceStock_stock, h]; rfl
  · rw [applyPriceStock_price, h]; rfl

/-- Base record for the C10 witness. -/
def c10e : ConsolidatedProduct :=
  ⟨1, "AAA", "Планшети", 100, 5, some "d", some "s", none⟩

/-- Patch supplying empty strings for the text fields and zero for stock and
price. -/
def c10b : ProductSourceB :=
  ⟨1, some "", some "", some "", some "", none, some 0, some 0⟩

/-- Witness for C10 at a concrete record and patch. -/
theorem update_empty_string_fields_witness :
    (updateExisting c10e c10b).name = c10e.name ∧
    (updateExisting c10e c10b).category = c10e.category ∧
    (updateExisting c10e c10b).description = c10e.description ∧
    (updateExisting c10e c10b).supplier = c10e.supplier ∧
    (updateExisting c10e c10b).stock = 0 ∧
    (updateExisting c10e c10b).price = 0 := by
  obtain ⟨h1, h2, h3, h4, h5, h6⟩ := update_empty_string_fields c10e c10b
  exact ⟨h1 rfl, h2 rfl, h3 rfl, h4 rfl, h5 0 rfl, h6 0 rfl⟩

/-! Association-list lemmas for the consolidated mapping. -/

/-- Looking up the key just assigned returns the assigned value. -/
theorem lookupP_setKey_self (m : PMap) (k : Int) (v : ConsolidatedProduct) :
    lookupP (setKey m k v) k = some v := by
  induction m with
  | nil => simp [setKey, lookupP]
  | cons p rest ih =>
    obtain ⟨k0, v0⟩ := p
    by_cases h : k0 = k
    · simp [setKey, h, lookupP]
    · simp [setKey, h, lookupP, ih]

/-- Assigning to an existing key leaves the key list unchanged. -/
theorem keysOf_setKey_of_lookup (m : PMap) (k : Int) (v : ConsolidatedProduct)
    (h : (lookupP m k).isSome) : keysOf (setKey m k v) = keysOf m := by
  induction m with
  | nil => simp [lookupP] at h
  | cons p rest ih =>
    obtain ⟨k0, v0⟩ := p
    by_cases hk : k0 = k
    · simp [setKey, hk, keysOf]
    · simp only [lookupP, if_neg hk] at h
      simp [setKey, hk, keysOf] at ih ⊢
      exact ih h

/-! Counter lemmas for the merge pass. -/

/-- One merge step never decreases the counter, and an assigned identifier
is the new counter value, strictly above the old one. -/
theorem stepB_counter (s : MergeState) (r : RawItem) :
    s.2 ≤ (stepB s r).1.2 ∧
    ∀ k, (stepB s r).2 = some k → k = (stepB s r).1.2 ∧ s.2 < k := by
  obtain ⟨m, cm⟩ := s
  cases r with
  | nonObj => simp [stepB]
  | obj f =>
    cases hp : parseB f with
    | none => simp [stepB, hp]
    | some b =>
      simp only [stepB, hp]
      cases hl : lookupP m b.product_id with
      | some e => simp [processParsedB, hl]
      | none =>
        by_cases hr : requiredPresent b
        · by_cases hv : insertValid b
          · simp only [processParsedB, hl, hr, if_true, hv]
            refine ⟨by omega, ?_⟩
            intro k hk
            simp only [Option.some.injEq] at hk
            omega
          · simp [processParsedB, hl, hr, hv]
        · simp [processParsedB, hl, hr]

/-- Over a whole merge pass the counter is monotone, every assigned
identifier exceeds the starting counter, and the assigned identifiers are
strictly increasing in input order. -/
theorem mergeRun_ids (rs : List RawItem) : ∀ s : MergeState,
    s.2 ≤ (mergeRun s rs).1.2 ∧
    (∀ k ∈ (mergeRun s rs).2, s.2 < k) ∧
    (mergeRun s rs).2.Pairwise (· < ·) := by
  induction rs with
  | nil => intro s; simp [mergeRun]
  | cons r rs ih =>
    intro s
    obtain ⟨hmono, hgt, hpw⟩ := ih (stepB s r).1
    obtain ⟨h1, h2⟩ := stepB_counter s r
    have hrun : mergeRun s (r :: rs) =
        ((mergeRun (stepB s r).1 rs).1, consOpt (stepB s r).2 (mergeRun (stepB s r).1 rs).2) :=
      rfl
    cases ho : (stepB s r).2 with
    | none =>
      rw [hrun, ho]
      exact ⟨le_trans h1 hmono, fun k hk => lt_of_le_of_lt h1 (hgt k hk), hpw⟩
    | some k =>
      obtain ⟨hk1, hk2⟩ := h2 k ho
      rw [hrun, ho]
      refine ⟨le_trans h1 hmono, ?_, ?_⟩
      · intro j hj
        rcases List.mem_cons.mp hj with h | h
        · omega
        · exact lt_of_le_of_lt h1 (hgt j h)
      · exact List.Pairwise.cons (fun j hj => by have := hgt j hj; omega) hpw

/-- C3 (amended): the fresh identifiers assigned to records inserted during
one merge pass, started as `transform_data` starts it (counter at the
maximum key of the seeded mapping, 0 when it is empty), are strictly
increasing in patch input order and all exceed the pre-merge maximum.  They
come from a counter incremented on every insertion attempt, so they need
not equal one more than the mapping's current maximum after an attempt
whose record failed validation. -/
theorem merge_assigned_ids_increasing (m : PMap) (db : List RawItem) :
    ((mergeRun (m, maxKeyOr0 m) db).2).Pairwise (· < ·) ∧
    ∀ k ∈ (mergeRun (m, maxKeyOr0 m) db).2, maxKeyOr0 m < k := by
  obtain ⟨h1, h2, h3⟩ := mergeRun_ids db (m, maxKeyOr0 m)
  exact ⟨h3, h2⟩

/-- Patch whose record fails `ConsolidatedProduct` validation (name of
length 2) after passing the presence check. -/
def c3Bad : RawItem :=
  .obj [("product_id", .jnum 9), ("name", .jstr "ab"), ("category", .jstr "Audio"),
        ("price", .jnum 50), ("stock", .jnum 3)]

/-- Well-formed new patch record. -/
def c3Good : RawItem :=
  .obj [("product_id", .jnum 10), ("name", .jstr "Xyz"), ("category", .jstr "Audio"),
        ("price", .jnum 50), ("stock", .jnum 3)]

/-- C3 counterexample: starting from an empty mapping (pre-merge maximum 0),
a skipped invalid insertion attempt makes the next inserted record receive
identifier 2 although the mapping is still empty when it is processed, so
the assigned identifier is not one more than the current maximum identifier
across the mapping. -/
theorem merge_fresh_id_gap_counterexample :
    (mergeRun (([] : PMap), 0) [c3Bad, c3Good]).2 = [2] ∧
    (mergeRun (([] : PMap), 0) [c3Bad]).1.1 = [] := by decide

/-- C8: merging an empty patch sequence returns the seeded mapping
unchanged. -/
theorem merge_patches_empty (m : PMap) : merge_patches m [] = m := rfl

/-- C9: a later patch in the same merge pass whose product id equals the
fresh identifier assigned to an earlier inserted patch record takes the
update branch: nothing new is inserted, the key set is unchanged, and the
freshly inserted record is updated in place. -/
theorem patch_updates_fresh_insert (s : MergeState) (b1 b2 : ProductSourceB) (k : Int)
    (h1 : (processParsedB s b1).2 = some k) (h2 : b2.product_id = k) :
    (processParsedB (processParsedB s b1).1 b2).2 = none ∧
    keysOf (processParsedB (processParsedB s b1).1 b2).1.1 =
      keysOf (processParsedB s b1).1.1 ∧
    ∀ e, lookupP (processParsedB s b1).1.1 k = some e →
      lookupP (processParsedB (processParsedB s b1).1 b2).1.1 k =
        some (updateExisting e b2) := by
  obtain ⟨m, cm⟩ := s
  cases hl : lookupP m b1.product_id with
  | some e0 => simp [processParsedB, hl] at h1
  | none =>
    by_cases hr : requiredPresent b1
    · by_cases hv : insertValid b1
      · simp only [processParsedB, hl, hr, if_true, hv] at h1 ⊢
        simp only [Option.some.injEq] at h1
        subst h1
        have hself : lookupP (setKey m (cm + 1) (insertedRecord b1 (cm + 1))) (cm + 1)
            = some (insertedRecord b1 (cm + 1)) :=
          lookupP_setKey_self m (cm + 1) (insertedRecord b1 (cm + 1))
        simp only [h2, hself]
        refine ⟨trivial, ?_, ?_⟩
        · exact keysOf_setKey_of_lookup _ _ _ (by rw [hself]; rfl)
        · intro e he
          simp only [Option.some.injEq] at he
          subst he
          exact lookupP_setKey_self _ _ _
      · simp [processParsedB, hl, hr, hv] at h1
    · simp [processParsedB, hl, hr] at h1

/-- New patch record inserted with fresh identifier 1 from an empty state. -/
def c9b1 : ProductSourceB := ⟨9, some "Abc", some "Audio", none, none, none, some 5, some 2⟩

/-- Later patch targeting the freshly assigned identifier 1. -/
def c9b2 : ProductSourceB := ⟨1, none, none, none, some "SupplierZ", none, none, none⟩

/-- Witness for C9 at a concrete pair of patches. -/
theorem patch_updates_fresh_insert_witness :
    (processParsedB (processParsedB (([] : PMap), 0) c9b1).1 c9b2).2 = none ∧
    keysOf (processParsedB (processParsedB (([] : PMap), 0) c9b1).1 c9b2).1.1 =
      keysOf (processParsedB (([] : PMap), 0) c9b1).1.1 := by
  obtain ⟨w1, w2, w3⟩ :=
    patch_updates_fresh_insert (([] : PMap), 0) c9b1 c9b2 1 (by decide) rfl
  exact ⟨w1, w2⟩

/-- C4: in the source-A pass, a candidate whose raw cleaning check reports a
non-positive price or stock contributes nothing to the mapping, and a
candidate passing the cleaning check that validates yields exactly the
record keyed by its identifier with its category rewritten through the
synonym table; the table matches case-insensitively and passes unmatched
categories through unchanged. -/
theorem seed_clean_and_normalize (m : PMap) (f : List (String × JVal)) (a : ProductSourceA) :
    (cleanVerdict f = some true → stepA m (RawItem.obj f) = m) ∧
    (cleanVerdict f = some false → parseA f = some a →
      stepA m (RawItem.obj f) = setKey m a.id (consolidateA a)) ∧
    (consolidateA a).id = a.id ∧
    (consolidateA a).category = normalizeCategory a.category ∧
    normalizeCategory "laptops" = "Ноутбуки" ∧
    normalizeCategory "xyz-unknown" = "xyz-unknown" := by
  refine ⟨fun h => ?_, fun h hp => ?_, rfl, rfl,
    by with_unfolding_all rfl, by with_unfolding_all rfl⟩
  · simp [stepA, h]
  · simp [stepA, h, hp]

/-- Raw source-A candidate with price 0, dropped by the cleaning check. -/
def c4Bad : List (String × JVal) :=
  [("id", .jnum 3), ("name", .jstr "Headph"), ("category", .jstr "Audio"),
   ("price", .jnum 0), ("stock", .jnum 5)]

/-- Valid raw source-A candidate. -/
def c4Good : List (String × JVal) :=
  [("id", .jnum 7), ("name", .jstr "Pad"), ("category", .jstr "Tablets"),
   ("price", .jnum 8500), ("stock", .jnum 2)]

/-- The validated form of `c4Good`. -/
def c4GoodA : ProductSourceA := ⟨7, "Pad", "Tablets", 8500, 2⟩

/-- Witness for C4 at a dropped and a surviving concrete candidate. -/
theorem seed_clean_and_normalize_witness :
    stepA [] (RawItem.obj c4Bad) = [] ∧
    stepA [] (RawItem.obj c4Good) = setKey [] c4GoodA.id (consolidateA c4GoodA) :=
  ⟨(seed_clean_and_normalize [] c4Bad c4GoodA).1 (by decide),
   (seed_clean_and_normalize [] c4Good c4GoodA).2.1 (by decide) (by decide)⟩

/-- A raw source-A element whose processing fails leaves any later fold
state untouched, so dropping it from the input changes nothing. -/
theorem seedA_skip (r : RawItem) (h : ∀ m, stepA m r = m) (l1 l2 : List RawItem) :
    seedA (l1 ++ r :: l2) = seedA (l1 ++ l2) := by
  unfold seedA
  rw [List.foldl_append, List.foldl_append, List.foldl_cons, h]

/-- A raw source-B element whose processing leaves every state unchanged can
be dropped from the merge pass without changing the outcome. -/
theorem mergeRun_skip (r : RawItem) (h : ∀ t : MergeState, stepB t r = (t, none))
    (l1 l2 : List RawItem) : ∀ s : MergeState,
    mergeRun s (l1 ++ r :: l2) = mergeRun s (l1 ++ l2) := by
  induction l1 with
  | nil =>
    intro s
    show mergeRun s (r :: l2) = mergeRun s l2
    have e1 : mergeRun s (r :: l2) =
        ((mergeRun (stepB s r).1 l2).1, consOpt (stepB s r).2 (mergeRun (stepB s r).1 l2).2) :=
      rfl
    rw [e1, h s]
    simp [consOpt]
  | cons a l1 ih =>
    intro s
    have e1 : mergeRun s (a :: (l1 ++ r :: l2)) =
        ((mergeRun (stepB s a).1 (l1 ++ r :: l2)).1,
          consOpt (stepB s a).2 (mergeRun (stepB s a).1 (l1 ++ r :: l2)).2) := rfl
    have e2 : mergeRun s (a :: (l1 ++ l2)) =
        ((mergeRun (stepB s a).1 (l1 ++ l2)).1,
          consOpt (stepB s a).2 (mergeRun (stepB s a).1 (l1 ++ l2)).2) := rfl
    show mergeRun s (a :: (l1 ++ r :: l2)) = mergeRun s (a :: (l1 ++ l2))
    rw [e1, e2, ih (stepB s a).1]

/-- C6 (amended): a record whose processing fails before touching the state
is isolated — dropping it from either pass leaves the output unchanged —
but an unmatched patch that passes the presence check and then fails record
validation is skipped with the fresh-identifier counter already
incremented, which shifts the identifiers of later inserted siblings. -/
theorem transform_isolates_failures (l1 l2 : List RawItem) (r : RawItem) (s : MergeState) :
    ((∀ m, stepA m r = m) → seedA (l1 ++ r :: l2) = seedA (l1 ++ l2)) ∧
    ((∀ t : MergeState, stepB t r = (t, none)) →
      mergeRun s (l1 ++ r :: l2) = mergeRun s (l1 ++ l2)) ∧
    (∀ f b, r = RawItem.obj f → parseB f = some b →
      lookupP s.1 b.product_id = none → requiredPresent b = true →
      insertValid b = false → stepB s r = ((s.1, s.2 + 1), none)) := by
  refine ⟨fun h => seedA_skip r h l1 l2, fun h => mergeRun_skip r h l1 l2 s, ?_⟩
  intro f b hf hp hl hr hv
  subst hf
  simp [stepB, hp, processParsedB, hl, hr, hv]

/-- Raw element whose validation fails in both passes (non-integer
product id, missing price). -/
def c6BadParse : RawItem := .obj [("product_id", .jstr "oops")]

/-- Valid raw source-A candidate used as a sibling. -/
def c6GoodSeed : RawItem :=
  .obj [("id", .jnum 1), ("name", .jstr "Abc"), ("category", .jstr "Audio"),
        ("price", .jnum 10), ("stock", .jnum 1)]

/-- Valid new patch record used as a sibling. -/
def c6GoodIns : RawItem :=
  .obj [("product_id", .jnum 10), ("name", .jstr "Def"), ("category", .jstr "Audio"),
        ("price", .jnum 50), ("stock", .jnum 3)]

/-- Unmatched patch that passes the presence check but fails record
validation (price -1). -/
def c6FailIns : RawItem :=
  .obj [("product_id", .jnum 9), ("name", .jstr "Ghi"), ("category", .jstr "Audio"),
        ("price", .jnum (-1)), ("stock", .jnum 3)]

/-- The parsed form of `c6FailIns`. -/
def c6FailB : ProductSourceB := ⟨9, some "Ghi", some "Audio", none, none, none, some (-1), some 3⟩

/-- Witness for C6 at concrete failing records. -/
theorem transform_isolates_failures_witness :
    seedA [c6BadParse, c6GoodSeed] = seedA [c6GoodSeed] ∧
    mergeRun (([] : PMap), 0) [c6BadParse, c6GoodIns] =
      mergeRun (([] : PMap), 0) [c6GoodIns] ∧
    stepB (([] : PMap), 0) c6FailIns = ((([] : PMap), 0 + 1), none) :=
  ⟨(transform_isolates_failures [] [c6GoodSeed] c6BadParse (([] : PMap), 0)).1
      (fun m => rfl),
   (transform_isolates_failures [] [c6GoodIns] c6BadParse (([] : PMap), 0)).2.1
      (fun t => by with_unfolding_all rfl),
   (transform_isolates_failures [] [] c6FailIns (([] : PMap), 0)).2.2
      _ c6FailB rfl (by decide) rfl (by decide) (by decide)⟩

/-- C6 counterexample: a patch that fails record validation after the
presence check is itself dropped (it inserts nothing), yet its presence
changes the identifier under which the valid sibling patch is inserted
(2 instead of 1), so a per-record failure is not fully isolated. -/
theorem merge_failed_insert_affects_sibling :
    keysOf (mergeRun (([] : PMap), 0) [c6FailIns, c6GoodIns]).1.1 = [2] ∧
    keysOf (mergeRun (([] : PMap), 0) [c6GoodIns]).1.1 = [1] ∧
    (mergeRun (([] : PMap), 0) [c6FailIns, c6GoodIns]).1.1 ≠
      (mergeRun (([] : PMap), 0) [c6GoodIns]).1.1 ∧
    (stepB (([] : PMap), 0) c6FailIns).1.1 = [] := by
  have k1 : keysOf (mergeRun (([] : PMap), 0) [c6FailIns, c6GoodIns]).1.1 = [2] := by
    with_unfolding_all rfl
  have k2 : keysOf (mergeRun (([] : PMap), 0) [c6GoodIns]).1.1 = [1] := by
    with_unfolding_all rfl
  refine ⟨k1, k2, fun h => ?_, by with_unfolding_all rfl⟩
  rw [h, k2] at k1
  exact absurd k1 (by decide)

/-- Failure modes of the `/consolidated-data` endpoint: 404 when the
snapshot file does not exist, 500 on malformed JSON, 500 on a record
failing `ConsolidatedProduct` validation. -/
inductive GetError where
  | notFound
  | decodeError
  | validationError
deriving DecidableEq

/-- Validation of one raw snapshot object against `ConsolidatedProduct`
(`ConsolidatedProduct(**item)`). -/
def parseConsolidated (f : List (String × JVal)) : Option ConsolidatedProduct :=
  (reqField f "id" coerceInt).bind fun i =>
  (reqField f "name" coerceStr).bind fun nm =>
  if nm.length < 3 then none else
  (reqField f "category" coerceStr).bind fun cat =>
  (reqField f "price" coerceFloat).bind fun pr =>
  if pr ≤ 0 then none else
  (reqField f "stock" coerceInt).bind fun st =>
  if st < 0 then none else
  (optField f "description" coerceStr).bind fun ds =>
  (optField f "supplier" coerceStr).bind fun sp =>
  (optField f "price_change_percentage" coerceFloat).bind fun pcp =>
  some ⟨i, nm, cat, pr, st, ds, sp, pcp⟩

/-- Validation of one raw snapshot element; a non-object raises inside the
list comprehension and surfaces as a validation failure. -/
def parseConsolidatedItem : RawItem → Option ConsolidatedProduct
  | .nonObj => none
  | .obj f => parseConsolidated f

/-- The list comprehension of line 278: validate every stored record, the
first failure aborts. -/
def validateAll : List RawItem → Option (List ConsolidatedProduct)
  | [] => some []
  | r :: rs =>
    match parseConsolidatedItem r, validateAll rs with
    | some v, some l => some (v :: l)
    | _, _ => none

/-- Model of `get_consolidated_data` (lines 269-288).  The snapshot file is
abstracted as `none` (absent), `some none` (present but malformed JSON) or
`some (some items)` (a parsed JSON array of raw objects). -/
def get_consolidated_data :
    Option (Option (List RawItem)) → Except GetError (List ConsolidatedProduct)
  | none => .error .notFound
  | some none => .error .decodeError
  | some (some items) =>
    match validateAll items with
    | none => .error .validationError
    | some l => .ok l

/-- A single invalid stored record fails the whole validation. -/
theorem validateAll_none_of_mem (items : List RawItem)
    (h : ∃ r ∈ items, parseConsolidatedItem r = none) : validateAll items = none := by
  induction items with
  | nil => simp at h
  | cons r rs ih =>
    obtain ⟨r0, hr0, hp⟩ := h
    rcases List.mem_cons.mp hr0 with h0 | h0
    · subst h0
      simp [validateAll, hp]
    · have := ih ⟨r0, h0, hp⟩
      unfold validateAll
      rw [this]
      cases parseConsolidatedItem r <;> rfl

/-- C7: the get endpoint fails with NotFound exactly when no snapshot
exists; a malformed snapshot and a snapshot containing an invalid record
fail with errors distinct from NotFound, so the caller can tell the never
ran case from a corrupted snapshot. -/
theorem get_consolidated_error_modes :
    get_consolidated_data none = .error .notFound ∧
    get_consolidated_data (some none) = .error .decodeError ∧
    (∀ items, (∃ r ∈ items, parseConsolidatedItem r = none) →
      get_consolidated_data (some (some items)) = .error .validationError) ∧
    GetError.decodeError ≠ GetError.notFound ∧
    GetError.validationError ≠ GetError.notFound := by
  refine ⟨rfl, rfl, ?_, by decide, by decide⟩
  intro items h
  simp [get_consolidated_data, validateAll_none_of_mem items h]

/-- Witness for C7: a snapshot holding one record that fails validation. -/
theorem get_consolidated_error_modes_witness :
    get_consolidated_data (some (some [RawItem.nonObj])) =
      .error .validationError :=
  (get_consolidated_error_modes.2.2.1) [RawItem.nonObj]
    ⟨RawItem.nonObj, List.mem_singleton.mpr rfl, rfl⟩

/-- Primary input for the negative-price patch run. -/
def c1A : List RawItem :=
  [.obj [("id", .jnum 1), ("name", .jstr "AAA"), ("category", .jstr "Laptops"),
         ("price", .jnum 100), ("stock", .jnum 5)]]

/-- Patch supplying a negative price for the existing record. -/
def c1B : List RawItem :=
  [.obj [("product_id", .jnum 1), ("price", .jnum (-5))]]

/-- The record `transform_data` actually produces for that run. -/
def c1Out : ConsolidatedProduct := ⟨1, "AAA", "Ноутбуки", -5, 5, none, none, some (-105)⟩

/-- C1 (code behaviour at the failing input): a patch may overwrite the
price of an existing record with a non-positive value, because pydantic
does not re-validate on field assignment; the final mapping then contains a
record with price -5, violating the price > 0 invariant the model itself
declares. -/
theorem transform_patched_negative_price :
    transform_data c1A c1B = [c1Out] ∧ c1Out.price ≤ 0 :=
  ⟨by with_unfolding_all rfl, by decide⟩

/-- The spec's end-to-end example primary input, whose name "A" is shorter
than the declared minimum length 3. -/
def c5A : List RawItem :=
  [.obj [("id", .jnum 1), ("price", .jnum 100), ("stock", .jnum 5),
         ("name", .jstr "A"), ("category", .jstr "Laptops")]]

/-- The spec's end-to-end example patch input. -/
def c5B : List RawItem :=
  [.obj [("product_id", .jnum 1), ("old_price", .jnum 100), ("price", .jnum 90)]]

/-- C5 counterexample: on the spec's example input the primary record fails
`ProductSourceA` validation (name length 1 < 3), the seed mapping stays
empty, the patch has no core fields to insert, and the pipeline returns the
empty list instead of the claimed single record. -/
theorem pipeline_example_short_name_counterexample :
    transform_data c5A c5B = [] ∧
    parseA [("id", .jnum 1), ("price", .jnum 100), ("stock", .jnum 5),
            ("name", .jstr "A"), ("category", .jstr "Laptops")] = none :=
  ⟨by decide, by decide⟩

/-- The example primary input with a name satisfying the minimum length. -/
def c5A3 : List RawItem :=
  [.obj [("id", .jnum 1), ("price", .jnum 100), ("stock", .jnum 5),
         ("name", .jstr "Abc"), ("category", .jstr "Laptops")]]

/-- The consolidated record for the amended example. -/
def c5Out : ConsolidatedProduct := ⟨1, "Abc", "Ноутбуки", 90, 5, none, none, some (-10)⟩

/-- C5 (amended): with a primary name of valid length, the pipeline yields
exactly one record with id 1, price 90, price-change-percentage -10.0, the
normalized laptop category, stock 5 and the primary name. -/
theorem pipeline_example_amended : transform_data c5A3 c5B = [c5Out] := by
  with_unfolding_all rfl
